import Mathlib

/-!
Verification development for the `fermilatprogram` repository: a shallow
embedding of the GRB-analysis orchestration code (photon selection, worker
pipeline, result collection, download retry logic, query windows,
configuration generation and spreadsheet parsing), together with theorems
settling the specification claims about it.

Numeric fields that the Python code holds as floats (energies, times,
probabilities, coordinates) are modelled as rationals; I/O outcomes
(HTTP requests, FITS files, the external fitting engine) are modelled as
explicit environment parameters; Python exceptions are modelled with
`Except`/`Option`.
-/

namespace FermiLat

/-! ## photon_analyzer.py: event model and `find_highest_prob_photon`

An event row of the `ft1_srcprob_00.fits` EVENTS table, restricted to the
columns the selection logic reads: `ENERGY`, `TIME`, `RA`, `DEC` and the
per-source probability column `prob_col` (already resolved to this GRB's
column, so it appears as the field `prob`).  The file/column resolution
and CSV side effects of `find_highest_prob_photon` are I/O environment;
the embedding takes the event table as input. -/
structure Event where
  energy : ℚ
  time : ℚ
  ra : ℚ
  dec : ℚ
  prob : ℚ
  deriving DecidableEq, Repr

/-- The record assembled at the end of `find_highest_prob_photon`
(`result = {...}`), restricted to the modelled fields.  The
`angular_separation`, `event_class` and `event_type` fields are computed
by external libraries (astropy / FITS metadata) and are not modelled. -/
structure PhotonResult where
  energy : ℚ
  time : ℚ
  relative_time : ℚ
  ra : ℚ
  dec : ℚ
  probability : ℚ
  total_high_prob_photons : ℕ
  deriving DecidableEq, Repr

/-- Value-level rendering of `x[np.argmax(x['ENERGY'])]` on a nonempty
event list `best :: rest`: `np.argmax` keeps the first index of the
maximum (a later element replaces the current best only when strictly
greater), so the result is the first event of maximal energy. -/
def argmaxEnergyAux (best : Event) : List Event → Event
  | [] => best
  | e :: es => if best.energy < e.energy then argmaxEnergyAux e es else argmaxEnergyAux best es

/-- `x[np.argmax(x['ENERGY'])]` for a possibly empty table (`np.argmax`
is only reached in the source behind a nonemptiness guard). -/
def argmaxEnergy? : List Event → Option Event
  | [] => none
  | e :: es => some (argmaxEnergyAux e es)

/-- Builds the returned dictionary of `find_highest_prob_photon` from the
selected photon `p`, the trigger time and the count
`len(high_prob_events)` (the count is taken over the `prob_threshold`
filter even when the photon came from the `> 0.9` fallback, exactly as in
the source). -/
def mkPhotonResult (trigger_met : ℚ) (p : Event) (total : ℕ) : PhotonResult :=
  { energy := p.energy
    time := p.time
    relative_time := p.time - trigger_met
    ra := p.ra
    dec := p.dec
    probability := p.prob
    total_high_prob_photons := total }

/-- The selection logic of `find_highest_prob_photon`
(src/photon_analyzer.py, lines 160-251): filter the events with
probability strictly above `prob_threshold`; if none remain return
`None`; otherwise take the first maximal-energy event among them; if its
probability is below 0.9, fall back to the first maximal-energy event
among ALL events with probability strictly above 0.9 (returning `None`
when there is none); finally assemble the result record, whose
`total_high_prob_photons` counts the `prob_threshold` filter. -/
def find_highest_prob_photon (trigger_met prob_threshold : ℚ) (events : List Event) :
    Option PhotonResult :=
  let high_prob_events := events.filter (fun e => prob_threshold < e.prob)
  match argmaxEnergy? high_prob_events with
  | none => none
  | some highest_photon =>
    if highest_photon.prob < Rat.divInt 9 10 then
      let very_high_prob_events := events.filter (fun e => Rat.divInt 9 10 < e.prob)
      match argmaxEnergy? very_high_prob_events with
      | none => none
      | some alt_photon =>
        some (mkPhotonResult trigger_met alt_photon high_prob_events.length)
    else
      some (mkPhotonResult trigger_met highest_photon high_prob_events.length)

/-- Spec-side reading of C1's field list: `r` is "a record of" event `e`
with `relative_time` relative to trigger `t` and photon count `n`. -/
def IsRecordOf (t : ℚ) (r : PhotonResult) (e : Event) (n : ℕ) : Prop :=
  r.energy = e.energy ∧ r.time = e.time ∧ r.probability = e.prob ∧
    r.ra = e.ra ∧ r.dec = e.dec ∧ r.relative_time = e.time - t ∧
    r.total_high_prob_photons = n

/-! ## lkmulty.py: `ResultCollector` (lines 49-71)

A Python `dict` keyed by GRB name is modelled as its key-to-value
mapping; Python `dict` equality (`==`) compares exactly this mapping,
independently of insertion order. -/

def Dict (α : Type) : Type := String → Option α

/-- `d[k] = v` on a Python dict. -/
def Dict.set {α : Type} (d : Dict α) (k : String) (v : α) : Dict α :=
  fun k' => if k' = k then some v else d k'

def Dict.empty {α : Type} : Dict α := fun _ => none

/-- The mutable state of a `ResultCollector`: `self._results` and
`self._errors`.  `self._lock` serializes the methods; each method is a
single atomic step on this state, which is the `α`-generic shape the
proofs use (in the program `α` is the per-GRB analysis-result dict). -/
structure ResultCollector (α : Type) where
  results : Dict α
  errors : Dict String

/-- A fresh collector: `__init__` creates two empty dicts. -/
def ResultCollector.init {α : Type} : ResultCollector α :=
  { results := Dict.empty, errors := Dict.empty }

/-- One collector method call: `add_result(grb_name, result)` or
`add_error(grb_name, error)` (the error is already stringified,
`str(error)`). -/
inductive CollectorOp (α : Type) where
  | add_result (grb_name : String) (result : α)
  | add_error (grb_name : String) (error : String)
  deriving DecidableEq

/-- The GRB-name key an operation writes. -/
def CollectorOp.key {α : Type} : CollectorOp α → String
  | .add_result k _ => k
  | .add_error k _ => k

/-- Effect of one method call on the collector state:
`add_result` performs `self._results[grb_name] = result`,
`add_error` performs `self._errors[grb_name] = str(error)`. -/
def applyOp {α : Type} (s : ResultCollector α) : CollectorOp α → ResultCollector α
  | .add_result k v => { s with results := s.results.set k v }
  | .add_error k e => { s with errors := s.errors.set k e }

/-- Effect of a serialized sequence of method calls (the lock serializes
concurrent calls into some interleaving order). -/
def applyOps {α : Type} (s : ResultCollector α) (ops : List (CollectorOp α)) :
    ResultCollector α :=
  ops.foldl applyOp s

/-- `get_results` returns `(self._results.copy(), self._errors.copy())`.
The `.copy()` calls make the returned dicts distinct objects from the
internal ones; in this value-level model the copies are the mapping
values themselves, and any later "mutation" of the returned pair builds
new values without touching the collector's state. -/
def get_results {α : Type} (s : ResultCollector α) : Dict α × Dict String :=
  (s.results, s.errors)

/-! ## Generate_gconfig.py: `format_grb_name`, `parse_grb_info`,
`create_config` -/

/-- Python's `\s` character class on the ASCII range (space, tab,
newline, carriage return, vertical tab, form feed). -/
def pyIsSpace (c : Char) : Bool :=
  c == ' ' || c == '\t' || c == '\n' || c == '\r' || c == '\x0b' || c == '\x0c'

/-- Python `str.strip()` on the character list: drop leading and
trailing whitespace. -/
def pyStripList (cs : List Char) : List Char :=
  ((cs.dropWhile pyIsSpace).reverse.dropWhile pyIsSpace).reverse

/-- Python `str.strip()`. -/
def pyStrip (s : String) : String :=
  String.mk (pyStripList s.toList)

/-- Python `str.split(sep)` for a one-character separator: split at
every occurrence of `sep`; `n` separators yield `n + 1` (possibly
empty) parts. -/
def pySplit (sep : Char) : List Char → List (List Char)
  | [] => [[]]
  | c :: rest =>
    if c == sep then [] :: pySplit sep rest
    else
      match pySplit sep rest with
      | h :: t => (c :: h) :: t
      | [] => [[c]]

/-- Python `s.split(',')` on strings. -/
def pySplitComma (s : String) : List String :=
  (pySplit ',' s.toList).map String.mk

/-- Match of the regex `grb\s*(\d{6}[a-zA-Z])` (with `re.IGNORECASE`)
anchored at the head of `cs`, returning the seven captured characters
(`\d{6}[a-zA-Z]`).  The greedy `\s*` can only stop at the first
non-space character, since `\s` and `\d` are disjoint. -/
def grbMatchHere : List Char → Option (List Char)
  | g :: r :: b :: rest =>
    if g.toLower == 'g' && r.toLower == 'r' && b.toLower == 'b' then
      match rest.dropWhile pyIsSpace with
      | d1 :: d2 :: d3 :: d4 :: d5 :: d6 :: a :: _ =>
        if d1.isDigit && d2.isDigit && d3.isDigit && d4.isDigit && d5.isDigit &&
            d6.isDigit && a.isAlpha then
          some [d1, d2, d3, d4, d5, d6, a]
        else none
      | _ => none
    else none
  | _ => none

/-- `re.search(r'grb\s*(\d{6}[a-zA-Z])', s, re.IGNORECASE)`: try the
pattern at every position from the left; the leftmost match wins. -/
def grbSearch : List Char → Option (List Char)
  | [] => none
  | c :: cs =>
    match grbMatchHere (c :: cs) with
    | some payload => some payload
    | none => grbSearch cs

/-- `re.sub(r'GRB\s+', 'GRB', s)`: scan left to right, replace every
non-overlapping occurrence of `GRB` followed by one or more whitespace
characters by `GRB`, and resume scanning after the matched run. -/
def subGrbSpace : List Char → List Char
  | 'G' :: 'R' :: 'B' :: c :: rest =>
    if pyIsSpace c then 'G' :: 'R' :: 'B' :: subGrbSpace (rest.dropWhile pyIsSpace)
    else 'G' :: subGrbSpace ('R' :: 'B' :: c :: rest)
  | c :: rest => c :: subGrbSpace rest
  | [] => []
  termination_by l => l.length
  decreasing_by
    · simp only [List.length_cons]
      have := List.Sublist.length_le (List.dropWhile_sublist (l := rest) pyIsSpace)
      omega
    · simp only [List.length_cons]
      omega
    · simp only [List.length_cons]
      omega

/-- `format_grb_name` (Generate_gconfig.py, lines 25-53): strip the
name; if the `grb\s*(\d{6}[a-zA-Z])` search matches, return `GRB` plus
the uppercased capture; otherwise, if the uppercased name starts with
`GRB`, return the uppercased name with space runs after `GRB` removed;
otherwise return the stripped name unchanged. -/
def format_grb_name (gcn_name : String) : String :=
  let stripped := pyStrip gcn_name
  match grbSearch stripped.toList with
  | some payload => String.mk ('G' :: 'R' :: 'B' :: payload.map Char.toUpper)
  | none =>
    let up := stripped.toList.map Char.toUpper
    if up.take 3 == ['G', 'R', 'B'] then String.mk (subGrbSpace up)
    else stripped

/-- A row of the `GCN` sheet of the Excel file, restricted to the
columns `parse_grb_info` reads.  `ra_dec` is the raw text of the merged
`ra,dec` column; the numeric columns hold floats in pandas, so
`float(...)` on them is the identity; `PIndex` is `none` when the
column is missing (`grb_row.get('PIndex', 'N/A')`). -/
structure GrbRow where
  gcn_name : String
  ra_dec : String
  trigger_met : ℚ
  T0 : ℚ
  T1 : ℚ
  PIndex : Option ℚ
  deriving DecidableEq, Repr

/-- The parameter dictionary returned by `parse_grb_info`. -/
structure GrbParams where
  trigger_met : ℚ
  T0 : ℚ
  T1 : ℚ
  ra : ℚ
  dec : ℚ
  PIndex : Option ℚ
  tmin : ℚ
  tmax : ℚ
  deriving DecidableEq, Repr

/-- `parse_grb_info` (Generate_gconfig.py, lines 56-125) on an
in-memory sheet.  The pandas Excel read and Python's `float(...)` on
text are library environment: `rows` is the sheet and `pyFloat` is the
`float` constructor (`none` models its `ValueError`).  Exceptions are
`Except.error`; the function's own `except` wrapper re-raises every
failure as `Exception("解析GRB信息失败: ...")`, so failures stay
failures. -/
def parse_grb_info (pyFloat : String → Option ℚ) (rows : List GrbRow)
    (grb_name : String) : Except String GrbParams :=
  let formatted_grb_name := format_grb_name grb_name
  match rows.find? (fun row => format_grb_name (pyStrip row.gcn_name) == formatted_grb_name) with
  | none => .error ("解析GRB信息失败: 在Excel表格中未找到GRB: " ++ grb_name)
  | some grb_row =>
    let ra_dec := pyStrip grb_row.ra_dec
    match pySplitComma ra_dec with
    | [part0, part1] =>
      match pyFloat (pyStrip part0), pyFloat (pyStrip part1) with
      | some ra, some dec =>
        .ok { trigger_met := grb_row.trigger_met
              T0 := grb_row.T0
              T1 := grb_row.T1
              ra := ra
              dec := dec
              PIndex := grb_row.PIndex
              tmin := grb_row.trigger_met + grb_row.T0 - 200
              tmax := grb_row.trigger_met + grb_row.T1 + 200 }
      | _, _ => .error "解析GRB信息失败: could not convert string to float"
    | _ => .error ("解析GRB信息失败: ra,dec格式不正确: " ++ ra_dec)

/-- One entry of `config['model']['sources']`. -/
structure SourceEntry where
  name : String
  ra : ℚ
  dec : ℚ
  SpectrumType : String
  SpatialModel : String
  deriving DecidableEq, Repr

/-- The slice of the fermipy `config.yaml` that `create_config`
touches: `data.evfile`, `data.scfile`, `selection.{ra,dec,tmin,tmax}`
and `model.sources` (`none` models a template whose `model` section has
no `sources` key; the code then skips the clearing step and inserts an
empty list before appending).  Template keys the function never writes
are carried through unchanged and are not modelled. -/
structure Config where
  evfile : String
  scfile : String
  selection_ra : ℚ
  selection_dec : ℚ
  selection_tmin : ℚ
  selection_tmax : ℚ
  model_sources : Option (List SourceEntry)
  deriving DecidableEq, Repr

/-- `create_config` (Generate_gconfig.py, lines 141-203): load the
template, clear `model.sources` when the key exists, point the data
files into `grb_data_dir/grb_name`, copy `ra`, `dec`, `tmin`, `tmax`
from `grb_params` into `selection`, ensure `model.sources` exists, and
append the GRB itself as a `PowerLaw2` point source.  Writing the YAML
file is I/O; the value is the configuration written. -/
def create_config (grb_name : String) (grb_params : GrbParams)
    (grb_data_dir : String) (template : Config) : Config :=
  let config :=
    match template.model_sources with
    | some _ => { template with model_sources := some [] }
    | none => template
  let config := { config with
    evfile := grb_data_dir ++ "/" ++ grb_name ++ "/ft1.fits"
    scfile := grb_data_dir ++ "/" ++ grb_name ++ "/ft2.fits"
    selection_ra := grb_params.ra
    selection_dec := grb_params.dec
    selection_tmin := grb_params.tmin
    selection_tmax := grb_params.tmax }
  let sources := match config.model_sources with
    | none => []
    | some s => s
  { config with
    model_sources := some (sources ++
      [{ name := grb_name, ra := grb_params.ra, dec := grb_params.dec,
         SpectrumType := "PowerLaw2", SpatialModel := "PointSource" }]) }

/-! ## lkmulty.py: `analyze_grb_worker` (lines 78-241) -/

/-- Outcome of a `gta.fit()` call that returns: the result dict,
abstracted to its truthiness (`if fit_results:`). -/
structure FitResults where
  truthy : Bool
  deriving DecidableEq, Repr

/-- The value stored by `add_result`:
`{'fit_results': ..., 'grb_params': ..., 'analysis_time': ...}`
(the wall-clock `analysis_time` is real time and not modelled). -/
structure AnalysisResult where
  fit_results : FitResults
  grb_params : GrbParams
  deriving DecidableEq, Repr

/-- One run's environment for `analyze_grb_worker`: the outcome of
every fallible step of the pipeline, in pipeline order.  `none` /
`false` means the step raised.  Steps whose exceptions the worker
swallows with a logged warning are included for completeness; they
cannot influence which collector call is made.
`find_highest_prob_photon` catches all its own exceptions and returns
`None`, so its outcome is an `Option`, never an exception. -/
structure WorkerEnv where
  parse : Except String GrbParams
  init_ok : Bool                    -- GTAnalysis(config_path) + gta.setup()
  print_roi_ok : Bool               -- swallowed (warning)
  optimize_ok : Bool                -- optimize/free_sources; swallowed
  fit : Option FitResults           -- none: gta.fit() raised
  write_roi_ok : Bool               -- step-8 gta.write_roi: NOT locally wrapped
  load_npy_ok : Bool                -- swallowed
  sed_ok : Bool                     -- swallowed
  highest_photon : Option PhotonResult
  save_results_ok : Bool            -- swallowed
  final_write_roi_ok : Bool         -- swallowed

/-- `analyze_grb_worker(grb_name, result_collector)`, as the list of
collector calls it performs.  The outer `try`/`except` converts any
exception that escapes the pipeline into a single `add_error`; the
locally wrapped steps (`print_roi`, fit-parameter setup, `np.load`, the
SED plots, the results file, the final model) log a warning and
continue; the step-8 `gta.write_roi` is not locally wrapped, so its
exception reaches the outer handler even after a successful fit. -/
def analyze_grb_worker (grb_name : String) (env : WorkerEnv) :
    List (CollectorOp AnalysisResult) :=
  match env.parse with
  | .error e => [.add_error grb_name e]
  | .ok grb_params =>
    if !env.init_ok then [.add_error grb_name "初始化失败"]
    else
      -- print_roi / optimize / free_sources failures: logged warnings only
      match env.fit with
      | none => [.add_error grb_name "拟合失败"]
      | some fit_results =>
        if !env.write_roi_ok then [.add_error grb_name "write_roi failed"]
        else
          -- np.load / SED / results file / final model: warnings only;
          -- find_highest_prob_photon returns an Option and never raises
          if fit_results.truthy then
            [.add_result grb_name { fit_results := fit_results, grb_params := grb_params }]
          else [.add_error grb_name "拟合失败"]

/-- Whether `env.parse` succeeded. -/
def parseOk (env : WorkerEnv) : Bool :=
  match env.parse with
  | .ok _ => true
  | .error _ => false

/-- "The external fit produced results": the pipeline reached
`gta.fit()`, the call returned, and the returned dict is truthy. -/
def fitProducedResults (env : WorkerEnv) : Bool :=
  parseOk env && env.init_ok &&
    (match env.fit with
     | some fr => fr.truthy
     | none => false)

/-- "An exception escaped the pipeline" (reached the worker's outer
`except`): the parse, the setup, the fit, or the unwrapped step-8
`write_roi` raised. -/
def exceptionEscaped (env : WorkerEnv) : Bool :=
  match env.parse with
  | .error _ => true
  | .ok _ =>
    if !env.init_ok then true
    else
      match env.fit with
      | none => true
      | some _ => !env.write_roi_ok

/-! ## download.py: `download_file` (lines 28-74) and
`query_and_download_fermi_data` (lines 76-148) -/

/-- The retry loop of `download_file` from attempt index `i` with
`fuel` attempts left (`fuel = retries - i`).  `attemptOk j` is the
outcome of attempt `j` (`requests.get` + `raise_for_status` + writing
every chunk).  Returns the result, the number of attempts made, and
the list of sleep durations: the `except` arm sleeps 5 seconds after
every failed attempt, including the last one; `return False` follows
the loop. -/
def downloadRetry (attemptOk : ℕ → Bool) : ℕ → ℕ → Bool × ℕ × List ℕ
  | _, 0 => (false, 0, [])
  | i, fuel + 1 =>
    if attemptOk i then (true, 1, [])
    else
      let rest := downloadRetry attemptOk (i + 1) fuel
      (rest.1, rest.2.1 + 1, 5 :: rest.2.2)

/-- `download_file(url, ..., retries=3)`: the `for attempt in
range(retries)` loop starting at attempt 0. -/
def download_file (attemptOk : ℕ → Bool) (retries : ℕ := 3) : Bool × ℕ × List ℕ :=
  downloadRetry attemptOk 0 retries

/-- `tstart, tstop = trigger_met + T0 - 1000, trigger_met + T1 + 2000`
(download.py, line 82): start of the queried time window. -/
def queryTstart (trigger_met T0 : ℚ) : ℚ := trigger_met + T0 - 1000

/-- End of the queried time window (download.py, line 82). -/
def queryTstop (trigger_met T1 : ℚ) : ℚ := trigger_met + T1 + 2000

/-- HTTP environment of one `query_and_download_fermi_data` call. -/
structure QueryEnv where
  post_ok : Bool                -- POST of the query + raise_for_status
  result_link : Option String   -- re.search for the QueryResults URL
  get_ok : Bool                 -- GET of the result page + raise_for_status
  wget_links : List String      -- re.findall of the wget .fits links
  download_ok : String → Bool   -- per-link outcome of download_file

/-- `query_and_download_fermi_data`, on its control flow: any `raise`
inside the `try` (HTTP error, missing result link via `ValueError`, no
download links via `ValueError`) is caught and the function returns
`False`; otherwise it counts successful `download_file` calls over the
links and returns `success_count == len(wget_links)`. -/
def query_and_download_fermi_data (env : QueryEnv) : Bool :=
  if !env.post_ok then false
  else
    match env.result_link with
    | none => false
    | some _ =>
      if !env.get_ok then false
      else if env.wget_links.isEmpty then false
      else env.wget_links.countP env.download_ok == env.wget_links.length

/-! ### Lemmas about `argmaxEnergy?` -/

theorem argmaxEnergyAux_mem (best : Event) (l : List Event) :
    argmaxEnergyAux best l = best ∨ argmaxEnergyAux best l ∈ l := by
  induction l generalizing best with
  | nil => exact Or.inl rfl
  | cons e es ih =>
    simp only [argmaxEnergyAux]
    split
    · rcases ih e with h | h
      · exact Or.inr (by simp [h])
      · exact Or.inr (List.mem_cons_of_mem _ h)
    · rcases ih best with h | h
      · exact Or.inl h
      · exact Or.inr (List.mem_cons_of_mem _ h)

theorem argmaxEnergyAux_le (best : Event) (l : List Event) :
    best.energy ≤ (argmaxEnergyAux best l).energy ∧
      ∀ x ∈ l, x.energy ≤ (argmaxEnergyAux best l).energy := by
  induction l generalizing best with
  | nil => exact ⟨le_refl _, by simp⟩
  | cons e es ih =>
    simp only [argmaxEnergyAux]
    split
    · rename_i hlt
      refine ⟨le_trans (le_of_lt hlt) (ih e).1, ?_⟩
      intro x hx
      rcases List.mem_cons.mp hx with rfl | hx
      · exact (ih x).1
      · exact (ih e).2 x hx
    · rename_i hge
      refine ⟨(ih best).1, ?_⟩
      intro x hx
      rcases List.mem_cons.mp hx with rfl | hx
      · exact le_trans (not_lt.mp hge) (ih best).1
      · exact (ih best).2 x hx

/-- The event picked by `argmaxEnergy?` is a member of the list and has
maximal energy in it. -/
theorem argmaxEnergy?_spec {l : List Event} {m : Event} (h : argmaxEnergy? l = some m) :
    m ∈ l ∧ ∀ x ∈ l, x.energy ≤ m.energy := by
  cases l with
  | nil => simp [argmaxEnergy?] at h
  | cons e es =>
    simp only [argmaxEnergy?, Option.some.injEq] at h
    subst h
    constructor
    · rcases argmaxEnergyAux_mem e es with h | h
      · simp [h]
      · exact List.mem_cons_of_mem _ h
    · intro x hx
      rcases List.mem_cons.mp hx with rfl | hx
      · exact (argmaxEnergyAux_le x es).1
      · exact (argmaxEnergyAux_le e es).2 x hx

theorem argmaxEnergy?_eq_none_iff (l : List Event) :
    argmaxEnergy? l = none ↔ l = [] := by
  cases l <;> simp [argmaxEnergy?]

theorem mkPhotonResult_isRecordOf (t : ℚ) (e : Event) (n : ℕ) :
    IsRecordOf t (mkPhotonResult t e n) e n :=
  ⟨rfl, rfl, rfl, rfl, rfl, rfl, rfl⟩

/-- C1 counterexample: with `prob_threshold = 1/2` and a single event of
probability `3/5 > 1/2`, the claim demands a record of that event, but
the code's `< 0.9` fallback finds no event with probability above `0.9`
and returns `None`. -/
theorem find_highest_prob_photon_threshold_only_cex :
    Rat.divInt 1 2 < (Event.mk 100 10 1 2 (Rat.divInt 3 5)).prob ∧
      find_highest_prob_photon 0 (Rat.divInt 1 2) [Event.mk 100 10 1 2 (Rat.divInt 3 5)] = none := by
  decide

/-- C1 (amended): `find_highest_prob_photon` returns `None` when no event
has probability strictly above `prob_threshold`; otherwise, with `m` the
first maximum-energy event among the events above `prob_threshold`: if
`m.prob ≥ 0.9` the result is `m`'s record (fields from `m`,
`relative_time = time - trigger_met`, `total_high_prob_photons` counting
the events above `prob_threshold`); if `m.prob < 0.9` the result is
instead the record of the first maximum-energy event among the events
with probability above `0.9` (count still over the `prob_threshold`
filter), or `None` when no event has probability above `0.9`. -/
theorem find_highest_prob_photon_spec (t th : ℚ) (evs : List Event) :
    (evs.filter (fun e => th < e.prob) = [] → find_highest_prob_photon t th evs = none) ∧
    ∀ m, argmaxEnergy? (evs.filter (fun e => th < e.prob)) = some m →
      (m ∈ evs ∧ th < m.prob ∧ ∀ x ∈ evs, th < x.prob → x.energy ≤ m.energy) ∧
      (Rat.divInt 9 10 ≤ m.prob →
        find_highest_prob_photon t th evs =
          some (mkPhotonResult t m (evs.filter (fun e => th < e.prob)).length) ∧
        IsRecordOf t (mkPhotonResult t m (evs.filter (fun e => th < e.prob)).length) m
          (evs.filter (fun e => th < e.prob)).length) ∧
      (m.prob < Rat.divInt 9 10 →
        (evs.filter (fun e => Rat.divInt 9 10 < e.prob) = [] → find_highest_prob_photon t th evs = none) ∧
        ∀ m', argmaxEnergy? (evs.filter (fun e => Rat.divInt 9 10 < e.prob)) = some m' →
          find_highest_prob_photon t th evs =
            some (mkPhotonResult t m' (evs.filter (fun e => th < e.prob)).length) ∧
          IsRecordOf t (mkPhotonResult t m' (evs.filter (fun e => th < e.prob)).length) m'
            (evs.filter (fun e => th < e.prob)).length) := by
  constructor
  · intro h
    simp [find_highest_prob_photon, h, argmaxEnergy?]
  · intro m hm
    obtain ⟨hmem, hmax⟩ := argmaxEnergy?_spec hm
    rw [List.mem_filter] at hmem
    refine ⟨⟨hmem.1, by simpa using hmem.2, ?_⟩, ?_, ?_⟩
    · intro x hx hxp
      exact hmax x (List.mem_filter.mpr ⟨hx, by simpa using hxp⟩)
    · intro h09
      refine ⟨?_, mkPhotonResult_isRecordOf ..⟩
      simp [find_highest_prob_photon, hm, not_lt.mpr h09]
    · intro hlt
      constructor
      · intro hvery
        simp only [find_highest_prob_photon, hm, hvery]
        simp [hlt, argmaxEnergy?]
      · intro m' hm'
        refine ⟨?_, mkPhotonResult_isRecordOf ..⟩
        simp only [find_highest_prob_photon, hm, hm']
        simp [hlt]

/-- Witness for C1's amended theorem on a concrete two-event table. -/
theorem find_highest_prob_photon_spec_witness :
    find_highest_prob_photon 0 (Rat.divInt 1 2)
        [Event.mk 50 10 1 2 (Rat.divInt 95 100), Event.mk 80 20 3 4 (Rat.divInt 92 100)] =
      some (mkPhotonResult 0 (Event.mk 80 20 3 4 (Rat.divInt 92 100)) 2) := by
  have h := (find_highest_prob_photon_spec 0 (Rat.divInt 1 2)
    [Event.mk 50 10 1 2 (Rat.divInt 95 100), Event.mk 80 20 3 4 (Rat.divInt 92 100)]).2
    (Event.mk 80 20 3 4 (Rat.divInt 92 100)) (by decide)
  exact (h.2.1 (by decide)).1

/-- C9: every record returned by `find_highest_prob_photon` has
probability at least `0.9`; and when the first maximum-energy event above
`prob_threshold` has probability below `0.9`, the function returns `None`
if no event has probability above `0.9`, and otherwise the record of the
first maximum-energy event among all events with probability above
`0.9`. -/
theorem find_highest_prob_photon_min_probability (t th : ℚ) (evs : List Event) :
    (∀ r, find_highest_prob_photon t th evs = some r → Rat.divInt 9 10 ≤ r.probability) ∧
    ∀ m, argmaxEnergy? (evs.filter (fun e => th < e.prob)) = some m → m.prob < Rat.divInt 9 10 →
      (evs.filter (fun e => Rat.divInt 9 10 < e.prob) = [] → find_highest_prob_photon t th evs = none) ∧
      ∀ m', argmaxEnergy? (evs.filter (fun e => Rat.divInt 9 10 < e.prob)) = some m' →
        m' ∈ evs ∧ Rat.divInt 9 10 < m'.prob ∧ (∀ x ∈ evs, Rat.divInt 9 10 < x.prob → x.energy ≤ m'.energy) ∧
        find_highest_prob_photon t th evs =
          some (mkPhotonResult t m' (evs.filter (fun e => th < e.prob)).length) := by
  constructor
  · intro r hr
    unfold find_highest_prob_photon at hr
    rcases hhigh : argmaxEnergy? (evs.filter (fun e => th < e.prob)) with _ | m
    · simp [hhigh] at hr
    · simp only [hhigh] at hr
      by_cases hlt : m.prob < Rat.divInt 9 10
      · rcases hvery : argmaxEnergy? (evs.filter (fun e => Rat.divInt 9 10 < e.prob)) with _ | m'
        · simp [hlt, hvery] at hr
        · simp only [hlt, hvery, if_true, if_pos] at hr
          obtain ⟨hmem', _⟩ := argmaxEnergy?_spec hvery
          rw [List.mem_filter] at hmem'
          have hp : Rat.divInt 9 10 < m'.prob := by simpa using hmem'.2
          obtain rfl := Option.some.inj hr
          exact le_of_lt hp
      · simp only [if_neg hlt] at hr
        obtain rfl := Option.some.inj hr
        exact not_lt.mp hlt
  · intro m hm hlt
    constructor
    · intro hvery
      simp only [find_highest_prob_photon, hm, hvery]
      simp [hlt, argmaxEnergy?]
    · intro m' hm'
      obtain ⟨hmem', hmax'⟩ := argmaxEnergy?_spec hm'
      rw [List.mem_filter] at hmem'
      refine ⟨hmem'.1, by simpa using hmem'.2, ?_, ?_⟩
      · intro x hx hxp
        exact hmax' x (List.mem_filter.mpr ⟨hx, by simpa using hxp⟩)
      · simp only [find_highest_prob_photon, hm, hm']
        simp [hlt]

/-- Witness for C9 on a table whose maximum-energy event above the
threshold has probability below `0.9`, exercising the fallback. -/
theorem find_highest_prob_photon_min_probability_witness :
    Event.mk 60 15 1 2 (Rat.divInt 95 100) ∈
        [Event.mk 100 10 1 2 (Rat.divInt 6 10), Event.mk 60 15 1 2 (Rat.divInt 95 100)] ∧
      find_highest_prob_photon 0 (Rat.divInt 1 2)
          [Event.mk 100 10 1 2 (Rat.divInt 6 10), Event.mk 60 15 1 2 (Rat.divInt 95 100)] =
        some (mkPhotonResult 0 (Event.mk 60 15 1 2 (Rat.divInt 95 100)) 2) := by
  have h := ((find_highest_prob_photon_min_probability 0 (Rat.divInt 1 2)
    [Event.mk 100 10 1 2 (Rat.divInt 6 10), Event.mk 60 15 1 2 (Rat.divInt 95 100)]).2
    (Event.mk 100 10 1 2 (Rat.divInt 6 10)) (by decide) (by decide)).2
    (Event.mk 60 15 1 2 (Rat.divInt 95 100)) (by decide)
  exact ⟨h.1, h.2.2.2⟩

/-! ### ResultCollector: order insensitivity (C3) -/

theorem Dict.set_comm {α : Type} (d : Dict α) {k k' : String} (h : k ≠ k') (v v' : α) :
    (d.set k v).set k' v' = (d.set k' v').set k v := by
  funext x
  unfold Dict.set
  by_cases h1 : x = k'
  · by_cases h2 : x = k
    · exact absurd (h2.symm.trans h1) h
    · simp [h1, h2, Ne.symm h]
  · by_cases h2 : x = k <;> simp [h1, h2, h]

theorem applyOp_comm {α : Type} (s : ResultCollector α) (a b : CollectorOp α)
    (h : a = b ∨ a.key ≠ b.key) :
    applyOp (applyOp s a) b = applyOp (applyOp s b) a := by
  rcases h with rfl | h
  · rfl
  · cases a with
    | add_result k v =>
      cases b with
      | add_result k' v' =>
        simp only [applyOp]
        congr 1
        exact Dict.set_comm s.results (by simpa [CollectorOp.key] using h) v v'
      | add_error k' e' => rfl
    | add_error k e =>
      cases b with
      | add_result k' v' => rfl
      | add_error k' e' =>
        simp only [applyOp]
        congr 1
        exact Dict.set_comm s.errors (by simpa [CollectorOp.key] using h) e e'

/-- C3: for sequences of `add_result`/`add_error` calls with pairwise
distinct GRB-name keys, any permutation of the call order yields the
same `_results`/`_errors` mappings, and hence the same pair from
`get_results`.  (`get_results` hands out `.copy()`s, so in this value
model mutating the returned pair cannot change the collector.) -/
theorem resultCollector_order_insensitive {α : Type} (ops1 ops2 : List (CollectorOp α))
    (init : ResultCollector α) (hperm : ops1.Perm ops2)
    (hkeys : ops1.Pairwise (fun a b => a.key ≠ b.key)) :
    applyOps init ops1 = applyOps init ops2 ∧
      get_results (applyOps init ops1) = get_results (applyOps init ops2) := by
  have hsym : Symmetric (fun a b : CollectorOp α => a.key ≠ b.key) := fun _ _ h => h.symm
  have hcomm : ∀ x ∈ ops1, ∀ y ∈ ops1, ∀ z : ResultCollector α,
      applyOp (applyOp z x) y = applyOp (applyOp z y) x := by
    intro x hx y hy z
    rcases eq_or_ne x y with rfl | hxy
    · rfl
    · exact applyOp_comm z x y (Or.inr (List.Pairwise.forall hsym hkeys hx hy hxy))
  have heq := hperm.foldl_eq' hcomm init
  exact ⟨heq, congrArg get_results heq⟩

/-- Witness for C3 on two concrete calls in both orders. -/
theorem resultCollector_order_insensitive_witness :
    applyOps (ResultCollector.init (α := ℕ))
        [CollectorOp.add_result "GRB090510" 1, CollectorOp.add_error "GRB220617A" "fit failed"] =
      applyOps ResultCollector.init
        [CollectorOp.add_error "GRB220617A" "fit failed", CollectorOp.add_result "GRB090510" 1] :=
  (resultCollector_order_insensitive
    [CollectorOp.add_result "GRB090510" 1, CollectorOp.add_error "GRB220617A" "fit failed"]
    [CollectorOp.add_error "GRB220617A" "fit failed", CollectorOp.add_result "GRB090510" 1]
    ResultCollector.init (by decide) (by decide)).1

/-! ### analyze_grb_worker: exactly one collector call (C2) -/

/-- C2: a single `analyze_grb_worker` call registers exactly one
outcome in the collector: it performs `add_result(grb_name, ...)` if
and only if the external fit produced (truthy) results and no exception
escaped the pipeline, and otherwise performs exactly one
`add_error(grb_name, ...)`; no exception propagates to the caller
(the function's type already has no escaping exception). -/
theorem analyze_grb_worker_single_outcome (grb_name : String) (env : WorkerEnv) :
    (analyze_grb_worker grb_name env).length = 1 ∧
    ((∃ v, analyze_grb_worker grb_name env = [CollectorOp.add_result grb_name v]) ↔
      fitProducedResults env = true ∧ exceptionEscaped env = false) ∧
    ((∃ e, analyze_grb_worker grb_name env = [CollectorOp.add_error grb_name e]) ↔
      ¬(fitProducedResults env = true ∧ exceptionEscaped env = false)) := by
  obtain ⟨parse, init_ok, pr, opt, fit, wr, ld, sed, hp, sv, fw⟩ := env
  rcases parse with e | params
  · simp [analyze_grb_worker, fitProducedResults, exceptionEscaped, parseOk]
  · cases init_ok
    · simp [analyze_grb_worker, fitProducedResults, exceptionEscaped, parseOk]
    · rcases fit with _ | ⟨⟨t⟩⟩
      · simp [analyze_grb_worker, fitProducedResults, exceptionEscaped, parseOk]
      · cases wr
        · simp [analyze_grb_worker, fitProducedResults, exceptionEscaped, parseOk]
        · cases t <;>
            simp [analyze_grb_worker, fitProducedResults, exceptionEscaped, parseOk]

/-- Witness for C2: a fully successful run stores exactly one result. -/
theorem analyze_grb_worker_single_outcome_witness :
    (analyze_grb_worker "GRB090510"
        ⟨Except.ok ⟨100, 0, 10, 1, 2, none, 0, 0⟩, true, true, true, some ⟨true⟩,
          true, true, true, none, true, true⟩).length = 1 ∧
      ∃ v, analyze_grb_worker "GRB090510"
          ⟨Except.ok ⟨100, 0, 10, 1, 2, none, 0, 0⟩, true, true, true, some ⟨true⟩,
            true, true, true, none, true, true⟩ =
        [CollectorOp.add_result "GRB090510" v] :=
  have h := analyze_grb_worker_single_outcome "GRB090510"
    ⟨Except.ok ⟨100, 0, 10, 1, 2, none, 0, 0⟩, true, true, true, some ⟨true⟩,
      true, true, true, none, true, true⟩
  ⟨h.1, h.2.1.mpr (by decide)⟩

/-! ### create_config: single point source and selection fields (C7) -/

/-- C7: whatever `model.sources` the template contained (any list, or
no `sources` key at all), the written configuration has exactly the GRB
itself as its single source — a `PointSource` with spectrum
`PowerLaw2` at `grb_params.ra`/`grb_params.dec` — and its `selection`
carries `ra`, `dec`, `tmin`, `tmax` unchanged from `grb_params`. -/
theorem create_config_single_source (grb_name : String) (grb_params : GrbParams)
    (grb_data_dir : String) (template : Config) :
    (create_config grb_name grb_params grb_data_dir template).model_sources =
      some [{ name := grb_name, ra := grb_params.ra, dec := grb_params.dec,
              SpectrumType := "PowerLaw2", SpatialModel := "PointSource" }] ∧
    (create_config grb_name grb_params grb_data_dir template).selection_ra = grb_params.ra ∧
    (create_config grb_name grb_params grb_data_dir template).selection_dec = grb_params.dec ∧
    (create_config grb_name grb_params grb_data_dir template).selection_tmin = grb_params.tmin ∧
    (create_config grb_name grb_params grb_data_dir template).selection_tmax = grb_params.tmax := by
  rcases template with ⟨ev, sc, ra, dec, tmin, tmax, sources⟩
  rcases sources with _ | s <;>
    simp [create_config]

/-- Witness for C7 on a template that already carried two sources. -/
theorem create_config_single_source_witness :
    (create_config "GRB090510" ⟨100, 0, 10, 3, 4, none, 50, 60⟩ "grb_data"
        ⟨"old1", "old2", 9, 9, 9, 9,
          some [⟨"bg1", 0, 0, "PowerLaw", "PointSource"⟩,
                ⟨"bg2", 1, 1, "PowerLaw", "PointSource"⟩]⟩).model_sources =
      some [{ name := "GRB090510", ra := 3, dec := 4,
              SpectrumType := "PowerLaw2", SpatialModel := "PointSource" }] :=
  (create_config_single_source "GRB090510" ⟨100, 0, 10, 3, 4, none, 50, 60⟩ "grb_data"
    ⟨"old1", "old2", 9, 9, 9, 9,
      some [⟨"bg1", 0, 0, "PowerLaw", "PointSource"⟩,
            ⟨"bg2", 1, 1, "PowerLaw", "PointSource"⟩]⟩).1

/-! ### parse_grb_info: tmin/tmax and failure modes (C8) -/

/-- C8: when some row's formatted `gcn_name` equals the formatted query
name — `grb_row` being the first such row, as taken by the lookup
loop's `break` — `parse_grb_info` returns a dictionary with
`tmin = trigger_met + T0 - 200` and `tmax = trigger_met + T1 + 200`
computed from that row (provided its `ra,dec` field parses); it raises
when no row's formatted `gcn_name` equals the formatted query name, and
when the matched row's `ra,dec` field does not split on `,` into
exactly two parts. -/
theorem parse_grb_info_spec (pyFloat : String → Option ℚ) (rows : List GrbRow)
    (grb_name : String) :
    ((∀ r ∈ rows, format_grb_name (pyStrip r.gcn_name) ≠ format_grb_name grb_name) →
      ∃ e, parse_grb_info pyFloat rows grb_name = .error e) ∧
    ∀ row, rows.find?
        (fun r => format_grb_name (pyStrip r.gcn_name) == format_grb_name grb_name) =
        some row →
      ((pySplitComma (pyStrip row.ra_dec)).length ≠ 2 →
        ∃ e, parse_grb_info pyFloat rows grb_name = .error e) ∧
      ∀ a b, pySplitComma (pyStrip row.ra_dec) = [a, b] →
        ∀ x y, pyFloat (pyStrip a) = some x → pyFloat (pyStrip b) = some y →
          ∃ p, parse_grb_info pyFloat rows grb_name = .ok p ∧
            p.tmin = row.trigger_met + row.T0 - 200 ∧
            p.tmax = row.trigger_met + row.T1 + 200 ∧
            p.trigger_met = row.trigger_met ∧ p.T0 = row.T0 ∧ p.T1 = row.T1 ∧
            p.ra = x ∧ p.dec = y ∧ p.PIndex = row.PIndex := by
  constructor
  · intro hnone
    have hfind : rows.find?
        (fun r => format_grb_name (pyStrip r.gcn_name) == format_grb_name grb_name) = none := by
      rw [List.find?_eq_none]
      intro r hr
      simpa using hnone r hr
    refine ⟨"解析GRB信息失败: 在Excel表格中未找到GRB: " ++ grb_name, ?_⟩
    simp [parse_grb_info, hfind]
  · intro row hrow
    constructor
    · intro hlen
      simp only [parse_grb_info, hrow]
      rcases hsplit : pySplitComma (pyStrip row.ra_dec) with _ | ⟨a, _ | ⟨b, _ | ⟨c, cs⟩⟩⟩
      · exact ⟨_, rfl⟩
      · exact ⟨_, rfl⟩
      · exact absurd (by simp [hsplit]) hlen
      · exact ⟨_, rfl⟩
    · intro a b hsplit x y hx hy
      simp only [parse_grb_info, hrow, hsplit, hx, hy]
      exact ⟨_, rfl, rfl, rfl, rfl, rfl, rfl, rfl, rfl, rfl⟩

/-- Witness for C8 on a one-row sheet matching `grb090510a`. -/
theorem parse_grb_info_spec_witness :
    parse_grb_info
        (fun s => if s = "10" then some 10 else if s = "20" then some 20 else none)
        [⟨"GRB 090510A", "10, 20", 600, -1, 5, none⟩] "grb090510a" =
      Except.ok ⟨600, -1, 5, 10, 20, none, 600 + -1 - 200, 600 + 5 + 200⟩ := by
  have h := ((parse_grb_info_spec
      (fun s => if s = "10" then some 10 else if s = "20" then some 20 else none)
      [⟨"GRB 090510A", "10, 20", 600, -1, 5, none⟩] "grb090510a").2
      ⟨"GRB 090510A", "10, 20", 600, -1, 5, none⟩ (by decide)).2
      "10" " 20" (by decide) 10 20 (by decide) (by decide)
  obtain ⟨p, hp, h1, h2, h3, h4, h5, h6, h7, h8⟩ := h
  rw [hp]
  obtain ⟨tm, t0, t1, ra, dec, pi, tmin, tmax⟩ := p
  simp only at h1 h2 h3 h4 h5 h6 h7 h8
  simp [h1, h2, h3, h4, h5, h6, h7, h8]

/-! ### Query window strictly contains analysis window (C10) -/

/-- C10: for the row that `parse_grb_info` matched, the download query
window `[trigger_met + T0 - 1000, trigger_met + T1 + 2000]` strictly
contains the analysis selection window `[tmin, tmax]` produced by
`parse_grb_info`. -/
theorem query_window_covers_analysis_window (pyFloat : String → Option ℚ)
    (rows : List GrbRow) (grb_name : String) (row : GrbRow) (p : GrbParams)
    (hrow : rows.find?
        (fun r => format_grb_name (pyStrip r.gcn_name) == format_grb_name grb_name) =
        some row)
    (hp : parse_grb_info pyFloat rows grb_name = .ok p) :
    queryTstart row.trigger_met row.T0 < p.tmin ∧
      p.tmax < queryTstop row.trigger_met row.T1 := by
  have htmin : p.tmin = row.trigger_met + row.T0 - 200 ∧
      p.tmax = row.trigger_met + row.T1 + 200 := by
    simp only [parse_grb_info, hrow] at hp
    split at hp
    · split at hp
      · obtain rfl := Except.ok.inj hp
        exact ⟨rfl, rfl⟩
      · exact Except.noConfusion hp
    · exact Except.noConfusion hp
  constructor
  · rw [htmin.1]
    unfold queryTstart
    linarith
  · rw [htmin.2]
    unfold queryTstop
    linarith

/-- Witness for C10 on the same concrete one-row sheet. -/
theorem query_window_covers_analysis_window_witness :
    queryTstart 600 (-1) < (600 : ℚ) + -1 - 200 ∧
      (600 : ℚ) + 5 + 200 < queryTstop 600 5 :=
  query_window_covers_analysis_window
    (fun s => if s = "10" then some 10 else if s = "20" then some 20 else none)
    [⟨"GRB 090510A", "10, 20", 600, -1, 5, none⟩] "grb090510a"
    ⟨"GRB 090510A", "10, 20", 600, -1, 5, none⟩
    ⟨600, -1, 5, 10, 20, none, 600 + -1 - 200, 600 + 5 + 200⟩
    (by decide) rfl

/-! ### download_file: fixed sleep/retry (C5) -/

theorem downloadRetry_spec (ok : ℕ → Bool) (fuel : ℕ) : ∀ i : ℕ,
    (downloadRetry ok i fuel).2.1 ≤ fuel ∧
    ((downloadRetry ok i fuel).1 = true ↔ ∃ j < fuel, ok (i + j) = true) ∧
    ((downloadRetry ok i fuel).1 = true →
      ∃ k, (downloadRetry ok i fuel).2.1 = k + 1 ∧ ok (i + k) = true ∧
        ∀ j < k, ok (i + j) = false) ∧
    (downloadRetry ok i fuel).2.2 =
      List.replicate
        (if (downloadRetry ok i fuel).1 then (downloadRetry ok i fuel).2.1 - 1
          else (downloadRetry ok i fuel).2.1) 5 := by
  induction fuel with
  | zero => intro i; simp [downloadRetry]
  | succ fuel ih =>
    intro i
    by_cases hok : ok i = true
    · refine ⟨?_, ?_, ?_, ?_⟩ <;> simp only [downloadRetry, hok, if_true, if_pos]
      · omega
      · simp only [true_iff]
        exact ⟨0, by omega, by simpa using hok⟩
      · intro _
        exact ⟨0, rfl, by simpa using hok, by omega⟩
      · rfl
    · have hoks : ok i = false := by simpa using hok
      obtain ⟨ih1, ih2, ih3, ih4⟩ := ih (i + 1)
      have hred : downloadRetry ok i (fuel + 1) =
          ((downloadRetry ok (i + 1) fuel).1, (downloadRetry ok (i + 1) fuel).2.1 + 1,
            5 :: (downloadRetry ok (i + 1) fuel).2.2) := by
        simp [downloadRetry, hoks]
      rw [hred]
      dsimp only
      refine ⟨by simpa using ih1, ?_, ?_, ?_⟩
      · rw [ih2]
        constructor
        · rintro ⟨j, hj, hjok⟩
          refine ⟨j + 1, by omega, ?_⟩
          have : i + (j + 1) = i + 1 + j := by omega
          rw [this]
          exact hjok
        · rintro ⟨j, hj, hjok⟩
          cases j with
          | zero => exact absurd (by simpa using hjok) (by simp [hoks])
          | succ j' =>
            refine ⟨j', by omega, ?_⟩
            have : i + 1 + j' = i + (j' + 1) := by omega
            rw [this]
            exact hjok
      · intro ht
        obtain ⟨k, hk1, hk2, hk3⟩ := ih3 ht
        refine ⟨k + 1, by omega, ?_, ?_⟩
        · have : i + (k + 1) = i + 1 + k := by omega
          rw [this]
          exact hk2
        · intro j hj
          cases j with
          | zero => simpa using hoks
          | succ j' =>
            have : i + (j' + 1) = i + 1 + j' := by omega
            rw [this]
            exact hk3 j' (by omega)
      · rcases hres : (downloadRetry ok (i + 1) fuel).1 with _ | _
        · simp only [hres, if_false, if_neg, Bool.false_eq_true, ite_false]
          rw [ih4, hres]
          simp [List.replicate_succ]
        · obtain ⟨k, hk1, _, _⟩ := ih3 hres
          simp only [hres, if_true, if_pos, ite_true]
          rw [ih4, hres]
          simp only [if_true, ite_true]
          rw [← List.replicate_succ]
          congr 1
          omega

/-- C5: `download_file` makes at most `retries` attempts, returns
`True` as soon as one attempt succeeds (having failed exactly on all
earlier attempts), returns `False` if and only if all `retries`
attempts fail, and sleeps a fixed 5 seconds after each failed attempt
(so the sleep list is `5` repeated once per failed attempt). -/
theorem download_file_retry_spec (attemptOk : ℕ → Bool) (retries : ℕ) :
    (download_file attemptOk retries).2.1 ≤ retries ∧
    ((download_file attemptOk retries).1 = true ↔ ∃ i < retries, attemptOk i = true) ∧
    ((download_file attemptOk retries).1 = false ↔ ∀ i < retries, attemptOk i = false) ∧
    ((download_file attemptOk retries).1 = true →
      ∃ k, (download_file attemptOk retries).2.1 = k + 1 ∧ attemptOk k = true ∧
        ∀ j < k, attemptOk j = false) ∧
    (download_file attemptOk retries).2.2 =
      List.replicate
        (if (download_file attemptOk retries).1 then (download_file attemptOk retries).2.1 - 1
          else (download_file attemptOk retries).2.1) 5 := by
  obtain ⟨h1, h2, h3, h4⟩ := downloadRetry_spec attemptOk retries 0
  have h2' : (download_file attemptOk retries).1 = true ↔
      ∃ i < retries, attemptOk i = true := by
    rw [download_file, h2]
    simp
  refine ⟨h1, h2', ?_, ?_, h4⟩
  · rw [← Bool.not_eq_true, h2']
    push_neg
    constructor
    · intro h i hi
      simpa using h i hi
    · intro h i hi
      simpa using h i hi
  · intro ht
    obtain ⟨k, hk1, hk2, hk3⟩ := h3 ht
    exact ⟨k, hk1, by simpa using hk2, fun j hj => by simpa using hk3 j hj⟩

/-- Witness for C5: with attempts 0 and 1 failing and attempt 2
succeeding, `download_file` (default `retries = 3`) returns `True`. -/
theorem download_file_retry_spec_witness :
    (download_file (fun i => decide (i = 2)) 3).1 = true ∧
      (download_file (fun i => decide (i = 2)) 3).2.1 ≤ 3 :=
  ⟨((download_file_retry_spec (fun i => decide (i = 2)) 3).2.1).mpr
      ⟨2, by decide, by decide⟩,
    (download_file_retry_spec (fun i => decide (i = 2)) 3).1⟩

/-! ### query_and_download_fermi_data: window and success condition (C6) -/

/-- C6: the query window is
`[trigger_met + T0 - 1000, trigger_met + T1 + 2000]`, and the function
returns `True` iff the POST succeeded, a result link was found, the
result page was fetched, at least one download link was extracted, and
every extracted link downloaded successfully; in every other case —
HTTP failure, missing result link, or no download links — it returns
`False` instead of raising. -/
theorem query_and_download_fermi_data_spec (env : QueryEnv) (trigger_met T0 T1 : ℚ) :
    (query_and_download_fermi_data env = true ↔
      env.post_ok = true ∧ env.result_link.isSome = true ∧ env.get_ok = true ∧
        env.wget_links ≠ [] ∧ ∀ l ∈ env.wget_links, env.download_ok l = true) ∧
    queryTstart trigger_met T0 = trigger_met + T0 - 1000 ∧
    queryTstop trigger_met T1 = trigger_met + T1 + 2000 := by
  refine ⟨?_, rfl, rfl⟩
  obtain ⟨post, link, get, links, dl⟩ := env
  cases post <;> rcases link with _ | u <;> cases get <;>
    simp [query_and_download_fermi_data]

/-- Witness for C6: two links, both downloading successfully. -/
theorem query_and_download_fermi_data_spec_witness :
    query_and_download_fermi_data
        ⟨true, some "queryresults", true, ["a.fits", "b.fits"], fun _ => true⟩ = true ∧
      queryTstart 600 (-1) = 600 + -1 - 1000 :=
  ⟨((query_and_download_fermi_data_spec
        ⟨true, some "queryresults", true, ["a.fits", "b.fits"], fun _ => true⟩ 600 (-1) 5).1).mpr
      (by decide),
    (query_and_download_fermi_data_spec
        ⟨true, some "queryresults", true, ["a.fits", "b.fits"], fun _ => true⟩ 600 (-1) 5).2.1⟩

end FermiLat
